import Mathlib

/-!
# Verification of the generator-streaming scripts of alx-backend-python

Shallow embedding of the database-streaming scripts under
`python-generators-0x00/`, the context managers under
`python-context-async-perations-0x02/`, the query cache under
`python-decorators-0x01/4-cache_query.py`, and the GitHub client helper
tested by `0x03-Unittests_and_integration_tests/test_client.py`.

The `user_data` table (seed.py) is modelled as a Lean list of records; a
database cursor over `SELECT * FROM user_data` delivers exactly that list in
order, `fetchmany(n)` takes the next `n` rows of the remaining list, and
`LIMIT p OFFSET o` is `(table.drop o).take p`.
-/

set_option maxHeartbeats 1000000

namespace AlxBackend

/-- A row of the `user_data` table (seed.py: `user_id CHAR(36)`, `name`,
`email`, `age DECIMAL(5,2)`); the scripts convert the stored numeric age to an
integer (`int(row['age'])`), so the delivered age is modelled as `Int`. -/
structure UserRecord where
  user_id : String
  name : String
  email : String
  age : Int
deriving Repr, DecidableEq

/-- Source `0-stream_users.py`, `stream_users`: iterate the cursor over
`SELECT * FROM user_data` and yield each row (as a dict).  The cursor's row
sequence is the table list; the generator yields it row by row. -/
def stream_users : List UserRecord → List UserRecord
  | [] => []
  | r :: rest => r :: stream_users rest

/-- The `while True` loop of `1-batch_processing.py`, `stream_users_in_batches`:
`batch = cursor.fetchmany(batch_size); if not batch: break; yield batch`.
`fetchmany` takes the next `batch_size` rows of the remaining cursor contents.
The loop is driven by a fuel argument bounding the iteration count; every
iteration before the final empty fetch consumes at least one row, so
`rows.length + 1` iterations always suffice (see `stream_users_in_batches`). -/
def stream_users_in_batches_go (batch_size : Nat) :
    Nat → List UserRecord → List (List UserRecord)
  | 0, _ => []
  | fuel + 1, rows =>
    if rows.take batch_size = [] then []
    else rows.take batch_size ::
      stream_users_in_batches_go batch_size fuel (rows.drop batch_size)

/-- Source `1-batch_processing.py`, `stream_users_in_batches`: run the fetch loop on
the whole cursor contents. -/
def stream_users_in_batches (batch_size : Nat) (rows : List UserRecord) :
    List (List UserRecord) :=
  stream_users_in_batches_go batch_size (rows.length + 1) rows

/-- Source `1-batch_processing.py`, `batch_processing`: for each batch of
`stream_users_in_batches(batch_size)`, for each user in the batch, yield the
user when `user['age'] > 25`. -/
def batch_processing (batch_size : Nat) (rows : List UserRecord) : List UserRecord :=
  ((stream_users_in_batches batch_size rows).map
    (fun batch => batch.filter (fun user => 25 < user.age))).flatten

/-- Source `2-lazy_paginate.py`, `paginate_users`: one
`SELECT * FROM user_data LIMIT page_size OFFSET offset` returning the fetched
page (here the success path; the error path is modelled separately by
`paginate_users_result`). -/
def paginate_users (page_size offset : Nat) (table : List UserRecord) :
    List UserRecord :=
  (table.drop offset).take page_size

/-- The `while True` loop of `2-lazy_paginate.py`, `lazy_paginate`, started at
a given offset: fetch a page, break if it is empty, otherwise advance the
offset by `page_size` and yield the page.  Fuel bounds the iteration count as
in `stream_users_in_batches_go`. -/
def lazy_paginate_go (page_size : Nat) (table : List UserRecord) :
    Nat → Nat → List (List UserRecord)
  | 0, _ => []
  | fuel + 1, offset =>
    if paginate_users page_size offset table = [] then []
    else paginate_users page_size offset table ::
      lazy_paginate_go page_size table fuel (offset + page_size)

/-- Source `2-lazy_paginate.py`, `lazy_paginate`: the pagination loop starting at
offset 0. -/
def lazy_paginate (page_size : Nat) (table : List UserRecord) :
    List (List UserRecord) :=
  lazy_paginate_go page_size table (table.length + 1) 0

/-- A Python numeric value as it occurs in `4-stream_ages.py`: either a
`float` (such as the initial `total_age = 0.0`) or a `decimal.Decimal` (the
raw value the MySQL connector delivers for the `DECIMAL(5,2)` column `age`).
Both magnitudes are exact here, so each carries its value as a rational; the
tag records the Python type, on which `+` dispatches. -/
inductive PyNum where
  | pyFloat (q : ℚ)
  | pyDecimal (q : ℚ)
deriving Repr, DecidableEq

/-- Python addition on these numeric types: `float + float` and
`Decimal + Decimal` succeed, but mixing `float` and `decimal.Decimal` (either
order) raises `TypeError`. -/
def py_add : PyNum → PyNum → Except String PyNum
  | PyNum.pyFloat a, PyNum.pyFloat b => Except.ok (PyNum.pyFloat (a + b))
  | PyNum.pyDecimal a, PyNum.pyDecimal b => Except.ok (PyNum.pyDecimal (a + b))
  | PyNum.pyFloat _, PyNum.pyDecimal _ =>
    Except.error "TypeError: unsupported operand type(s) for +=: float and decimal.Decimal"
  | PyNum.pyDecimal _, PyNum.pyFloat _ =>
    Except.error "TypeError: unsupported operand type(s) for +: decimal.Decimal and float"

def PyNum.val : PyNum → ℚ
  | PyNum.pyFloat q => q
  | PyNum.pyDecimal q => q

/-- Source `4-stream_ages.py`, `stream_user_ages`: `SELECT age FROM user_data`,
yielding `row['age']` raw, one per row — unlike the other generator scripts
there is no `int()` conversion, so each yielded age is the connector's
`decimal.Decimal` for the `DECIMAL(5,2)` column. -/
def stream_user_ages (table : List UserRecord) : List PyNum :=
  table.map (fun r => PyNum.pyDecimal (r.age : ℚ))

/-- The `for age in stream_user_ages()` loop of `average_age`: starting from
the accumulator, run `total_age += age; count += 1` for each streamed age; the
`+=` either produces the new total or raises, and a raise aborts the loop (no
`except` clause covers it). -/
def average_age_loop : PyNum → Nat → List PyNum → Except String (PyNum × Nat)
  | total, count, [] => Except.ok (total, count)
  | total, count, age :: rest =>
    match py_add total age with
    | Except.ok total2 => average_age_loop total2 (count + 1) rest
    | Except.error e => Except.error e

/-- Source `4-stream_ages.py`, `average_age`: starting from `total_age = 0.0`
(a Python `float`) and `count = 0`, accumulate the streamed ages, then produce
`0` when the count is zero and `total_age / count` otherwise.  An exception
raised by `total_age += age` propagates out of the function uncaught (the
only `except Error` clause is inside the generator and catches driver errors
only). -/
def average_age (table : List UserRecord) : Except String ℚ :=
  match average_age_loop (PyNum.pyFloat 0) 0 (stream_user_ages table) with
  | Except.error e => Except.error e
  | Except.ok (total, count) =>
    if count = 0 then Except.ok 0 else Except.ok (total.val / (count : ℚ))

/-- A small concrete `user_data` table used for sanity checks and witnesses. -/
def sampleTable : List UserRecord :=
  [⟨"a1", "Alice", "alice@example.com", 30⟩,
   ⟨"b2", "Bob", "bob@example.com", 20⟩,
   ⟨"c3", "Charlie", "charlie@example.com", 26⟩]

example : stream_users sampleTable = sampleTable := by decide
example : stream_users_in_batches 2 sampleTable =
    [[⟨"a1", "Alice", "alice@example.com", 30⟩,
      ⟨"b2", "Bob", "bob@example.com", 20⟩],
     [⟨"c3", "Charlie", "charlie@example.com", 26⟩]] := by decide
example : lazy_paginate 2 sampleTable = stream_users_in_batches 2 sampleTable := by decide
example : batch_processing 2 sampleTable =
    [⟨"a1", "Alice", "alice@example.com", 30⟩,
     ⟨"c3", "Charlie", "charlie@example.com", 26⟩] := by decide
example : average_age [] = Except.ok 0 := rfl
example : (average_age sampleTable).isOk = false := rfl

/-! ## Helper lemmas about the fetch loops -/

lemma stream_users_eq (table : List UserRecord) : stream_users table = table := by
  induction table with
  | nil => rfl
  | cons r rest ih => simp [stream_users, ih]

/-- The pagination loop at a given offset behaves exactly like the `fetchmany`
loop run on the cursor contents that remain past that offset: both test
`(table.drop offset).take page_size` for emptiness, and advancing the offset
by `page_size` corresponds to dropping `page_size` rows. -/
lemma lazy_paginate_go_eq_batches_go (page_size : Nat) (table : List UserRecord) :
    ∀ (fuel offset : Nat),
      lazy_paginate_go page_size table fuel offset =
        stream_users_in_batches_go page_size fuel (table.drop offset) := by
  intro fuel
  induction fuel with
  | zero => intro offset; rfl
  | succ fuel ih =>
    intro offset
    show (if (table.drop offset).take page_size = [] then [] else _) = _
    rw [stream_users_in_batches_go]
    by_cases h : (table.drop offset).take page_size = []
    · simp [h]
    · simp only [h, if_neg, if_false]
      rw [ih (offset + page_size), List.drop_drop]
      rfl

/-- Concatenating the batches of the `fetchmany` loop restores the cursor
contents, provided the fuel covers the iteration count. -/
lemma stream_users_in_batches_go_flatten (batch_size : Nat) (hbs : 1 ≤ batch_size) :
    ∀ (fuel : Nat) (rows : List UserRecord), rows.length < fuel →
      (stream_users_in_batches_go batch_size fuel rows).flatten = rows := by
  intro fuel
  induction fuel with
  | zero => intro rows h; omega
  | succ fuel ih =>
    intro rows hlen
    rw [stream_users_in_batches_go]
    by_cases h : rows.take batch_size = []
    · rw [List.take_eq_nil_iff] at h
      rcases h with h | h
      · omega
      · simp [h]
    · simp only [h, if_false]
      rw [List.flatten_cons, ih (rows.drop batch_size) ?_, List.take_append_drop]
      have hne : rows ≠ [] := by
        intro hnil
        exact h (by simp [hnil])
      have : 0 < rows.length := List.length_pos.mpr hne
      rw [List.length_drop]
      omega

/-- The `i`-th batch produced by the `fetchmany` loop is the `batch_size`-wide
window of the cursor contents starting at row `batch_size * i`. -/
lemma stream_users_in_batches_go_getElem (batch_size : Nat) (hbs : 1 ≤ batch_size) :
    ∀ (fuel : Nat) (rows : List UserRecord), rows.length < fuel →
      ∀ i : Nat, i < (stream_users_in_batches_go batch_size fuel rows).length →
        (stream_users_in_batches_go batch_size fuel rows)[i]? =
          some ((rows.drop (batch_size * i)).take batch_size) := by
  intro fuel
  induction fuel with
  | zero => intro rows hlen; omega
  | succ fuel ih =>
    intro rows hlen i hi
    by_cases hc : rows.take batch_size = []
    · rw [stream_users_in_batches_go] at hi
      simp [hc] at hi
    · have hne : rows ≠ [] := fun hnil => hc (by simp [hnil])
      have hpos : 0 < rows.length := List.length_pos.mpr hne
      have hdlen : (rows.drop batch_size).length < fuel := by
        rw [List.length_drop]; omega
      rw [stream_users_in_batches_go, if_neg hc] at hi
      rw [stream_users_in_batches_go, if_neg hc]
      cases i with
      | zero => simp
      | succ i =>
        rw [List.getElem?_cons_succ]
        have hi' : i < (stream_users_in_batches_go batch_size fuel
            (rows.drop batch_size)).length := by
          simpa using hi
        rw [ih (rows.drop batch_size) hdlen i hi']
        rw [List.drop_drop, Nat.mul_succ, Nat.add_comm (batch_size * i) batch_size]

/-- After the last batch the next `fetchmany` comes back empty: the fetch at
row `batch_size * (number of batches)` is `[]`. -/
lemma stream_users_in_batches_go_end (batch_size : Nat) (hbs : 1 ≤ batch_size) :
    ∀ (fuel : Nat) (rows : List UserRecord), rows.length < fuel →
      (rows.drop
        (batch_size * (stream_users_in_batches_go batch_size fuel rows).length)).take
          batch_size = [] := by
  intro fuel
  induction fuel with
  | zero => intro rows h; omega
  | succ fuel ih =>
    intro rows hlen
    by_cases hc : rows.take batch_size = []
    · rw [stream_users_in_batches_go, if_pos hc]
      simpa using hc
    · have hne : rows ≠ [] := fun hnil => hc (by simp [hnil])
      have hpos : 0 < rows.length := List.length_pos.mpr hne
      have hdlen : (rows.drop batch_size).length < fuel := by
        rw [List.length_drop]; omega
      rw [stream_users_in_batches_go, if_neg hc, List.length_cons, Nat.mul_succ,
        Nat.add_comm (batch_size * _) batch_size, ← List.drop_drop]
      exact ih (rows.drop batch_size) hdlen

/-- Every batch the `fetchmany` loop yields is non-empty (the loop breaks on an
empty fetch) and holds at most `batch_size` records. -/
lemma stream_users_in_batches_go_mem (batch_size : Nat) :
    ∀ (fuel : Nat) (rows b : List UserRecord),
      b ∈ stream_users_in_batches_go batch_size fuel rows →
        b ≠ [] ∧ b.length ≤ batch_size := by
  intro fuel
  induction fuel with
  | zero => intro rows b hb; simp [stream_users_in_batches_go] at hb
  | succ fuel ih =>
    intro rows b hb
    rw [stream_users_in_batches_go] at hb
    by_cases hc : rows.take batch_size = []
    · simp [hc] at hb
    · rw [if_neg hc] at hb
      rcases List.mem_cons.mp hb with hb | hb
      · subst hb
        refine ⟨hc, ?_⟩
        rw [List.length_take]
        exact inf_le_left
      · exact ih (rows.drop batch_size) b hb

lemma stream_users_in_batches_flatten (batch_size : Nat) (hbs : 1 ≤ batch_size)
    (rows : List UserRecord) :
    (stream_users_in_batches batch_size rows).flatten = rows :=
  stream_users_in_batches_go_flatten batch_size hbs (rows.length + 1) rows
    (Nat.lt_succ_self _)

/-- The paginated generator yields exactly the batch generator's output: both
walk the table in `page_size`-wide windows and stop at the first empty one. -/
lemma lazy_paginate_eq_batches (page_size : Nat) (table : List UserRecord) :
    lazy_paginate page_size table = stream_users_in_batches page_size table := by
  unfold lazy_paginate stream_users_in_batches
  rw [lazy_paginate_go_eq_batches_go, List.drop_zero]

lemma stream_users_in_batches_getElem (batch_size : Nat) (hbs : 1 ≤ batch_size)
    (table : List UserRecord) (i : Nat)
    (hi : i < (stream_users_in_batches batch_size table).length) :
    (stream_users_in_batches batch_size table)[i]? =
      some ((table.drop (batch_size * i)).take batch_size) :=
  stream_users_in_batches_go_getElem batch_size hbs (table.length + 1) table
    (Nat.lt_succ_self _) i hi

lemma stream_users_in_batches_end (batch_size : Nat) (hbs : 1 ≤ batch_size)
    (table : List UserRecord) :
    (table.drop (batch_size * (stream_users_in_batches batch_size table).length)).take
      batch_size = [] :=
  stream_users_in_batches_go_end batch_size hbs (table.length + 1) table
    (Nat.lt_succ_self _)

/-- Every fetch the loop actually yields came back non-empty. -/
lemma stream_users_in_batches_window_ne_nil (batch_size : Nat) (hbs : 1 ≤ batch_size)
    (table : List UserRecord) (i : Nat)
    (hi : i < (stream_users_in_batches batch_size table).length) :
    (table.drop (batch_size * i)).take batch_size ≠ [] := by
  have hget := stream_users_in_batches_getElem batch_size hbs table i hi
  obtain ⟨hl, hval⟩ := List.getElem?_eq_some_iff.mp hget
  have hmem : (table.drop (batch_size * i)).take batch_size ∈
      stream_users_in_batches batch_size table := by
    rw [← hval]
    exact List.getElem_mem hl
  exact (stream_users_in_batches_go_mem batch_size (table.length + 1) table _ hmem).1

/-! ## C1, C2, C8 -/

/-- C1: for every table contents and every `page_size ≥ 1` and
`batch_size ≥ 1`, concatenating the pages of `lazy_paginate`, the batches of
`stream_users_in_batches`, or the rows of `stream_users` produces the same
records, in the same order (hence with the same total count), as the single
unbounded `SELECT * FROM user_data`, i.e. the table itself. -/
theorem generators_concat_eq_select (page_size batch_size : Nat)
    (hps : 1 ≤ page_size) (hbs : 1 ≤ batch_size) (table : List UserRecord) :
    (lazy_paginate page_size table).flatten = table ∧
    (stream_users_in_batches batch_size table).flatten = table ∧
    stream_users table = table := by
  refine ⟨?_, stream_users_in_batches_flatten batch_size hbs table, stream_users_eq table⟩
  rw [lazy_paginate_eq_batches]
  exact stream_users_in_batches_flatten page_size hps table

/-- Witness for C1 at `page_size = batch_size = 2` on the sample table. -/
theorem generators_concat_eq_select_witness :
    1 ≤ 2 ∧ 1 ≤ 2 ∧
    ((lazy_paginate 2 sampleTable).flatten = sampleTable ∧
     (stream_users_in_batches 2 sampleTable).flatten = sampleTable ∧
     stream_users sampleTable = sampleTable) :=
  ⟨by decide, by decide, generators_concat_eq_select 2 2 (by decide) (by decide) sampleTable⟩

/-- A concrete user of age 25 and one of age 45, forming the `{25, 45}` table
of the spec's example. -/
def userAge25 : UserRecord := ⟨"u1", "Ursula", "u@example.com", 25⟩

def userAge45 : UserRecord := ⟨"u2", "Viktor", "v@example.com", 45⟩

/-- C2 (code bug): on the empty table the accumulation loop never runs and
`average_age` produces `0` as claimed, but on every non-empty table —
including the claimed `{25, 45}` table — the very first `total_age += age`
adds the `float` `0.0` to a `decimal.Decimal` age and raises an uncaught
`TypeError` instead of producing the arithmetic mean: `stream_user_ages`
yields the `DECIMAL(5,2)` column raw, with no `int()` conversion. -/
theorem average_age_raises_on_nonempty :
    average_age [] = Except.ok 0 ∧
    average_age [userAge25, userAge45] =
      Except.error
        "TypeError: unsupported operand type(s) for +=: float and decimal.Decimal" ∧
    (∀ table : List UserRecord, table ≠ [] →
      average_age table =
        Except.error
          "TypeError: unsupported operand type(s) for +=: float and decimal.Decimal") := by
  refine ⟨rfl, rfl, ?_⟩
  intro table hne
  cases table with
  | nil => exact absurd rfl hne
  | cons r rest => rfl

/-- Witness for C2's theorem on concrete tables: the crash on the sample
table's first row and the `0` on the empty table. -/
theorem average_age_raises_on_nonempty_witness :
    sampleTable ≠ [] ∧
    average_age sampleTable =
      Except.error
        "TypeError: unsupported operand type(s) for +=: float and decimal.Decimal" ∧
    average_age [] = Except.ok 0 :=
  ⟨by decide,
   average_age_raises_on_nonempty.2.2 sampleTable (by decide),
   average_age_raises_on_nonempty.1⟩

/-- C8: `batch_processing(batch_size)` yields, one record at a time and in
stream order across all batches, exactly the records of the underlying row
stream whose age is strictly greater than 25. -/
theorem batch_processing_filters_all_batches (batch_size : Nat) (hbs : 1 ≤ batch_size)
    (table : List UserRecord) :
    batch_processing batch_size table =
      (stream_users table).filter (fun user => 25 < user.age) := by
  unfold batch_processing
  rw [← List.filter_flatten, stream_users_in_batches_flatten batch_size hbs table,
    stream_users_eq]

/-- Witness for C8 at `batch_size = 2` on the sample table. -/
theorem batch_processing_filters_all_batches_witness :
    1 ≤ 2 ∧
    batch_processing 2 sampleTable =
      (stream_users sampleTable).filter (fun user => 25 < user.age) :=
  ⟨by decide, batch_processing_filters_all_batches 2 (by decide) sampleTable⟩

/-! ## C3, C6 -/

/-- C3: for every `page_size ≥ 1`, `lazy_paginate` performs its `i`-th fetch
(0-based) with `LIMIT page_size OFFSET page_size * i` — the offset advances by
exactly `page_size` after each non-empty result — every yielded page is
non-empty, and the loop terminates at the first empty page: the fetch at
offset `page_size * (number of pages)` is empty.  Likewise the batch generator
yields exactly the non-empty `fetchmany` windows and terminates at the first
empty fetch. -/
theorem pagination_offsets_and_termination (page_size batch_size : Nat)
    (hps : 1 ≤ page_size) (hbs : 1 ≤ batch_size) (table : List UserRecord) :
    (∀ i : Nat, i < (lazy_paginate page_size table).length →
      (lazy_paginate page_size table)[i]? =
        some (paginate_users page_size (page_size * i) table) ∧
      paginate_users page_size (page_size * i) table ≠ []) ∧
    paginate_users page_size
      (page_size * (lazy_paginate page_size table).length) table = [] ∧
    (∀ i : Nat, i < (stream_users_in_batches batch_size table).length →
      (stream_users_in_batches batch_size table)[i]? =
        some ((table.drop (batch_size * i)).take batch_size) ∧
      (table.drop (batch_size * i)).take batch_size ≠ []) ∧
    (table.drop
      (batch_size * (stream_users_in_batches batch_size table).length)).take
        batch_size = [] := by
  have hpag := lazy_paginate_eq_batches page_size table
  refine ⟨?_, ?_, ?_, ?_⟩
  · intro i hi
    rw [hpag] at hi ⊢
    exact ⟨stream_users_in_batches_getElem page_size hps table i hi,
      stream_users_in_batches_window_ne_nil page_size hps table i hi⟩
  · rw [hpag]
    exact stream_users_in_batches_end page_size hps table
  · intro i hi
    exact ⟨stream_users_in_batches_getElem batch_size hbs table i hi,
      stream_users_in_batches_window_ne_nil batch_size hbs table i hi⟩
  · exact stream_users_in_batches_end batch_size hbs table

/-- Witness for C3 at `page_size = batch_size = 2` on the sample table. -/
theorem pagination_offsets_and_termination_witness :
    1 ≤ 2 ∧
    ((∀ i : Nat, i < (lazy_paginate 2 sampleTable).length →
      (lazy_paginate 2 sampleTable)[i]? =
        some (paginate_users 2 (2 * i) sampleTable) ∧
      paginate_users 2 (2 * i) sampleTable ≠ []) ∧
    paginate_users 2 (2 * (lazy_paginate 2 sampleTable).length) sampleTable = [] ∧
    (∀ i : Nat, i < (stream_users_in_batches 2 sampleTable).length →
      (stream_users_in_batches 2 sampleTable)[i]? =
        some ((sampleTable.drop (2 * i)).take 2) ∧
      (sampleTable.drop (2 * i)).take 2 ≠ []) ∧
    (sampleTable.drop
      (2 * (stream_users_in_batches 2 sampleTable).length)).take 2 = []) :=
  ⟨by decide, pagination_offsets_and_termination 2 2 (by decide) (by decide) sampleTable⟩

/-- C6: for every `batch_size ≥ 1`, every yielded batch is non-empty and holds
at most `batch_size` records, every batch except possibly the last holds
exactly `batch_size` records, and the sequence ends at the first empty
fetch. -/
theorem batches_bounded_and_full (batch_size : Nat) (hbs : 1 ≤ batch_size)
    (table : List UserRecord) :
    (∀ b ∈ stream_users_in_batches batch_size table,
      b ≠ [] ∧ b.length ≤ batch_size) ∧
    (∀ i : Nat, i + 1 < (stream_users_in_batches batch_size table).length →
      ∀ b, (stream_users_in_batches batch_size table)[i]? = some b →
        b.length = batch_size) ∧
    (table.drop
      (batch_size * (stream_users_in_batches batch_size table).length)).take
        batch_size = [] := by
  refine ⟨?_, ?_, stream_users_in_batches_end batch_size hbs table⟩
  · intro b hb
    exact stream_users_in_batches_go_mem batch_size (table.length + 1) table b hb
  · intro i hi b hb
    have hi' : i < (stream_users_in_batches batch_size table).length :=
      Nat.lt_of_succ_lt hi
    have hget := stream_users_in_batches_getElem batch_size hbs table i hi'
    rw [hget] at hb
    have hb2 : (table.drop (batch_size * i)).take batch_size = b :=
      Option.some_inj.mp hb
    have hnext := stream_users_in_batches_window_ne_nil batch_size hbs table (i + 1) hi
    have h1 : ¬ (batch_size = 0 ∨ table.drop (batch_size * (i + 1)) = []) := by
      rw [← List.take_eq_nil_iff]
      exact hnext
    push_neg at h1
    have h2 : ¬ table.length ≤ batch_size * (i + 1) :=
      fun hle => h1.2 (List.drop_eq_nil_iff.mpr hle)
    have hmul : batch_size * (i + 1) = batch_size * i + batch_size := Nat.mul_succ _ _
    subst hb2
    rw [List.length_take, List.length_drop]
    exact inf_eq_left.mpr (by omega)

/-- Witness for C6 at `batch_size = 2` on the sample table. -/
theorem batches_bounded_and_full_witness :
    1 ≤ 2 ∧
    ((∀ b ∈ stream_users_in_batches 2 sampleTable, b ≠ [] ∧ b.length ≤ 2) ∧
    (∀ i : Nat, i + 1 < (stream_users_in_batches 2 sampleTable).length →
      ∀ b, (stream_users_in_batches 2 sampleTable)[i]? = some b → b.length = 2) ∧
    (sampleTable.drop
      (2 * (stream_users_in_batches 2 sampleTable).length)).take 2 = []) :=
  ⟨by decide, batches_bounded_and_full 2 (by decide) sampleTable⟩

/-! ## C4: driver errors are caught and degrade the result -/

/-- A driver-level event seen while iterating a cursor: the next row, or a
`mysql.connector.Error` raised mid-iteration. -/
inductive DbEvent where
  | row (r : UserRecord)
  | failure (msg : String)
deriving Repr, DecidableEq

/-- Source `0-stream_users.py`, `stream_users` over a fallible cursor: rows are
yielded as they arrive; a driver error is caught by the `except Error` clause,
printed, and ends the generator without propagating, keeping the rows already
yielded (reads are not transactional, nothing is rolled back). -/
def stream_users_events : List DbEvent → List UserRecord
  | [] => []
  | DbEvent.row r :: rest => r :: stream_users_events rest
  | DbEvent.failure _ :: _ => []

/-- Source `2-lazy_paginate.py`, `paginate_users`, both outcomes of the driver
interaction: a successful fetch returns the converted rows; a driver error is
caught by `except Error`, printed, and the function returns `[]`. -/
def paginate_users_result : Except String (List UserRecord) → List UserRecord
  | Except.ok rows => rows
  | Except.error _ => []

lemma stream_users_events_append (rows : List UserRecord) (tail : List DbEvent) :
    stream_users_events (rows.map DbEvent.row ++ tail) =
      rows ++ stream_users_events tail := by
  induction rows with
  | nil => simp
  | cons r rest ih => simp [stream_users_events, ih]

/-- C4: a driver error during streaming ends the generator after the rows
already yielded, without propagating; `paginate_users` returns `[]` on error;
and the error result is indistinguishable from the empty-table result. -/
theorem driver_errors_degrade (rows : List UserRecord) (msg e : String)
    (rest : List DbEvent) :
    stream_users_events (rows.map DbEvent.row ++ DbEvent.failure msg :: rest) = rows ∧
    stream_users_events (rows.map DbEvent.row) = rows ∧
    paginate_users_result (Except.error e) = [] ∧
    paginate_users_result (Except.error e) = paginate_users_result (Except.ok []) := by
  refine ⟨?_, ?_, rfl, rfl⟩
  · rw [stream_users_events_append]
    simp [stream_users_events]
  · rw [← List.append_nil (rows.map DbEvent.row), stream_users_events_append]
    simp [stream_users_events]

/-! ## C5: connection/cursor lifecycles -/

/-- Connection and cursor lifecycle events. -/
inductive ResEvent where
  | openConn
  | openCur
  | closeCur
  | closeConn
deriving Repr, DecidableEq

/-- How a consumer leaves a generator: exhausting it, breaking after `k`
yields (the driver calls the generator's `close()`), or a driver error inside
the `try` body. -/
inductive ExitPath where
  | completed
  | earlyBreak (k : Nat)
  | driverFailure (msg : String)
deriving Repr, DecidableEq

/-- Source `0-stream_users.py` and `1-batch_processing.py` connection usage: one
`seed.connect_to_prodev()` and one `conn.cursor()` inside `try`; one
`cursor.close()` and one `conn.close()` in `finally`.  The `finally` block
runs on every exit path, so the lifecycle trace is the same on all of them. -/
def held_cursor_generator_conn_trace (_table : List UserRecord) (_path : ExitPath) :
    List ResEvent :=
  [ResEvent.openConn, ResEvent.openCur, ResEvent.closeCur, ResEvent.closeConn]

/-- Source `2-lazy_paginate.py`, `paginate_users`: each call opens its own connection
and cursor in `try` and closes both in its own `finally`. -/
def paginate_users_conn_trace : List ResEvent :=
  [ResEvent.openConn, ResEvent.openCur, ResEvent.closeCur, ResEvent.closeConn]

/-- The connection events of a full run of `lazy_paginate`: one
`paginate_users` call per loop iteration, including the final call that
returns the empty page and stops the loop. -/
def lazy_paginate_conn_go (page_size : Nat) (table : List UserRecord) :
    Nat → Nat → List ResEvent
  | 0, _ => []
  | fuel + 1, offset =>
    if paginate_users page_size offset table = [] then paginate_users_conn_trace
    else paginate_users_conn_trace ++
      lazy_paginate_conn_go page_size table fuel (offset + page_size)

def lazy_paginate_conn_trace (page_size : Nat) (table : List UserRecord) :
    List ResEvent :=
  lazy_paginate_conn_go page_size table (table.length + 1) 0

/-- Each iteration of the pagination loop contributes one connection/cursor
open-close quadruple, one iteration per yielded page plus the final empty
fetch. -/
lemma lazy_paginate_conn_go_eq (page_size : Nat) (table : List UserRecord) :
    ∀ (fuel offset : Nat), table.length - offset < fuel →
      lazy_paginate_conn_go page_size table fuel offset =
        (List.replicate ((lazy_paginate_go page_size table fuel offset).length + 1)
          paginate_users_conn_trace).flatten := by
  intro fuel
  induction fuel with
  | zero => intro offset h; omega
  | succ fuel ih =>
    intro offset hfuel
    rw [lazy_paginate_conn_go, lazy_paginate_go]
    by_cases hc : paginate_users page_size offset table = []
    · simp [hc]
    · rw [if_neg hc, if_neg hc, List.length_cons]
      have hps : page_size ≠ 0 ∧ table.drop offset ≠ [] := by
        have := hc
        unfold paginate_users at this
        rw [List.take_eq_nil_iff] at this
        push_neg at this
        exact this
      have hofflt : offset < table.length := by
        rcases Nat.lt_or_ge offset table.length with h | h
        · exact h
        · exact absurd (List.drop_eq_nil_iff.mpr h) hps.2
      have hrec : table.length - (offset + page_size) < fuel := by
        have h1 : 1 ≤ page_size := Nat.one_le_iff_ne_zero.mpr hps.1
        omega
      rw [ih (offset + page_size) hrec]
      conv_rhs => rw [List.replicate_succ, List.flatten_cons]

lemma count_flatten_replicate (n : Nat) (l : List ResEvent) (a : ResEvent) :
    ((List.replicate n l).flatten).count a = n * l.count a := by
  induction n with
  | zero => simp
  | succ n ih =>
    rw [List.replicate_succ, List.flatten_cons, List.count_append, ih]
    ring

/-- C5 (amended): the row-streaming and batch generators each acquire exactly
one connection/cursor pair for their whole lifetime, closed in `finally` on
every exit path; the paginated generator instead opens and closes one
connection/cursor pair per `paginate_users` call — number of pages plus one
pairs over its lifetime — each released in its own `finally`. -/
theorem connection_lifecycle (page_size : Nat) (_hps : 1 ≤ page_size)
    (table : List UserRecord) (path : ExitPath) :
    (held_cursor_generator_conn_trace table path).count ResEvent.openConn = 1 ∧
    (held_cursor_generator_conn_trace table path).count ResEvent.closeConn = 1 ∧
    (held_cursor_generator_conn_trace table path).count ResEvent.openCur = 1 ∧
    (held_cursor_generator_conn_trace table path).count ResEvent.closeCur = 1 ∧
    (held_cursor_generator_conn_trace table path).getLast? = some ResEvent.closeConn ∧
    lazy_paginate_conn_trace page_size table =
      (List.replicate ((lazy_paginate page_size table).length + 1)
        paginate_users_conn_trace).flatten ∧
    (lazy_paginate_conn_trace page_size table).count ResEvent.openConn =
      (lazy_paginate page_size table).length + 1 ∧
    (lazy_paginate_conn_trace page_size table).count ResEvent.closeConn =
      (lazy_paginate page_size table).length + 1 := by
  have htr : lazy_paginate_conn_trace page_size table =
      (List.replicate ((lazy_paginate page_size table).length + 1)
        paginate_users_conn_trace).flatten :=
    lazy_paginate_conn_go_eq page_size table (table.length + 1) 0 (by omega)
  refine ⟨rfl, rfl, rfl, rfl, rfl, htr, ?_, ?_⟩
  · rw [htr, count_flatten_replicate,
      show List.count ResEvent.openConn paginate_users_conn_trace = 1 from by decide,
      Nat.mul_one]
  · rw [htr, count_flatten_replicate,
      show List.count ResEvent.closeConn paginate_users_conn_trace = 1 from by decide,
      Nat.mul_one]

/-- Counterexample to C5 as stated: on a one-row table with `page_size = 1`,
the paginated generator opens two connections over its lifetime (one per page
fetch, including the final empty fetch), not exactly one. -/
theorem connection_lifecycle_counterexample :
    (lazy_paginate_conn_trace 1 [userAge25]).count ResEvent.openConn = 2 ∧
    ¬ (lazy_paginate_conn_trace 1 [userAge25]).count ResEvent.openConn = 1 := by
  decide

/-- Witness for the amended C5 at `page_size = 1` on a one-row table and the
early-break exit path. -/
theorem connection_lifecycle_witness :
    1 ≤ 1 ∧
    ((held_cursor_generator_conn_trace [userAge25]
        (ExitPath.earlyBreak 0)).count ResEvent.openConn = 1 ∧
    (held_cursor_generator_conn_trace [userAge25]
        (ExitPath.earlyBreak 0)).count ResEvent.closeConn = 1 ∧
    (held_cursor_generator_conn_trace [userAge25]
        (ExitPath.earlyBreak 0)).count ResEvent.openCur = 1 ∧
    (held_cursor_generator_conn_trace [userAge25]
        (ExitPath.earlyBreak 0)).count ResEvent.closeCur = 1 ∧
    (held_cursor_generator_conn_trace [userAge25]
        (ExitPath.earlyBreak 0)).getLast? = some ResEvent.closeConn ∧
    lazy_paginate_conn_trace 1 [userAge25] =
      (List.replicate ((lazy_paginate 1 [userAge25]).length + 1)
        paginate_users_conn_trace).flatten ∧
    (lazy_paginate_conn_trace 1 [userAge25]).count ResEvent.openConn =
      (lazy_paginate 1 [userAge25]).length + 1 ∧
    (lazy_paginate_conn_trace 1 [userAge25]).count ResEvent.closeConn =
      (lazy_paginate 1 [userAge25]).length + 1) :=
  ⟨by decide, connection_lifecycle 1 (by decide) [userAge25] (ExitPath.earlyBreak 0)⟩

/-! ## C9: the SQLite context managers -/

/-- An open SQLite connection with `isolation_level = 'DEFERRED'`: `durable`
is the database state visible after the last commit, `session` the state as
seen inside the current transaction.  Statements in the `with` block mutate
only `session`; `commit` publishes it, `rollback` discards it. -/
structure SqlConn (α : Type) where
  durable : α
  session : α
deriving Repr, DecidableEq

def conn_commit {α : Type} (c : SqlConn α) : SqlConn α :=
  { c with durable := c.session }

def conn_rollback {α : Type} (c : SqlConn α) : SqlConn α :=
  { c with session := c.durable }

/-- Outcome of `DatabaseConnection.__exit__` (`0-databaseconnection.py`). -/
structure DbMgrDone (α : Type) where
  conn : SqlConn α
  connClosed : Bool
  suppress : Bool
deriving Repr, DecidableEq

/-- Outcome of `ExecuteQuery.__exit__` (`1-execute.py`), which also closes its
cursor. -/
structure QueryMgrDone (α : Type) where
  conn : SqlConn α
  cursorClosed : Bool
  connClosed : Bool
  suppress : Bool
deriving Repr, DecidableEq

/-- Source `0-databaseconnection.py`, `DatabaseConnection.__exit__`: if an exception
type is present, roll back, else commit; close the connection; `return False`
so the exception propagates. -/
def DatabaseConnection_done {α : Type} (c : SqlConn α) (excType : Option String) :
    DbMgrDone α :=
  { conn := match excType with
      | some _ => conn_rollback c
      | none => conn_commit c,
    connClosed := true,
    suppress := false }

/-- Source `1-execute.py`, `ExecuteQuery.__exit__`: close the cursor; if an exception
type is present, roll back, else commit; close the connection; `return False`. -/
def ExecuteQuery_done {α : Type} (c : SqlConn α) (excType : Option String) :
    QueryMgrDone α :=
  { conn := match excType with
      | some _ => conn_rollback c
      | none => conn_commit c,
    cursorClosed := true,
    connClosed := true,
    suppress := false }

/-- C9: for a block entered on durable state `base` whose statements turned
the session state into `blockEffect base`, exit via an exception rolls the
transaction back (durable state unchanged, session reset to it), closes the
resources and reports `False` so the exception propagates; normal exit commits
the session state and closes the resources. -/
theorem context_manager_exit (α : Type) (base : α) (blockEffect : α → α)
    (e : String) :
    ((ExecuteQuery_done ⟨base, blockEffect base⟩ (some e)).conn.durable = base ∧
     (ExecuteQuery_done ⟨base, blockEffect base⟩ (some e)).conn.session = base ∧
     (ExecuteQuery_done ⟨base, blockEffect base⟩ (some e)).cursorClosed = true ∧
     (ExecuteQuery_done ⟨base, blockEffect base⟩ (some e)).connClosed = true ∧
     (ExecuteQuery_done ⟨base, blockEffect base⟩ (some e)).suppress = false) ∧
    ((ExecuteQuery_done ⟨base, blockEffect base⟩ none).conn.durable =
        blockEffect base ∧
     (ExecuteQuery_done ⟨base, blockEffect base⟩ none).cursorClosed = true ∧
     (ExecuteQuery_done ⟨base, blockEffect base⟩ none).connClosed = true ∧
     (ExecuteQuery_done ⟨base, blockEffect base⟩ none).suppress = false) ∧
    ((DatabaseConnection_done ⟨base, blockEffect base⟩ (some e)).conn.durable = base ∧
     (DatabaseConnection_done ⟨base, blockEffect base⟩ (some e)).conn.session = base ∧
     (DatabaseConnection_done ⟨base, blockEffect base⟩ (some e)).connClosed = true ∧
     (DatabaseConnection_done ⟨base, blockEffect base⟩ (some e)).suppress = false) ∧
    ((DatabaseConnection_done ⟨base, blockEffect base⟩ none).conn.durable =
        blockEffect base ∧
     (DatabaseConnection_done ⟨base, blockEffect base⟩ none).connClosed = true ∧
     (DatabaseConnection_done ⟨base, blockEffect base⟩ none).suppress = false) :=
  ⟨⟨rfl, rfl, rfl, rfl, rfl⟩, ⟨rfl, rfl, rfl, rfl⟩, ⟨rfl, rfl, rfl, rfl⟩,
   ⟨rfl, rfl, rfl⟩⟩

/-! ## C10: the query cache -/

/-- A SQLite cell value as the driver returns it. -/
inductive Cell where
  | cInt (n : Int)
  | cText (s : String)
deriving Repr, DecidableEq

/-- A Python row value: `cursor.fetchall()` returns each row as a tuple; the
cache serializes each row with `list(row)`.  Python `==` never equates a tuple
with a list, which the constructor distinction captures. -/
inductive PyRow where
  | tupleRow (cells : List Cell)
  | listRow (cells : List Cell)
deriving Repr, DecidableEq

/-- Source `4-cache_query.py`: `CACHE_TTL = 10` seconds. -/
def CACHE_TTL : Int := 10

/-- Source `4-cache_query.py`: `serial_result = [list(row) for row in result]`. -/
def serialize_rows (result : List PyRow) : List PyRow :=
  result.map fun r => match r with
    | PyRow.tupleRow cs => PyRow.listRow cs
    | PyRow.listRow cs => PyRow.listRow cs

/-- The in-memory `query_cache` dict: query string ↦ (timestamp, serialized
result).  Overwriting is modelled by prepending, with lookup finding the
newest entry. -/
structure QueryCache where
  entries : List (String × Int × List PyRow)
deriving Repr, DecidableEq

def cache_lookup (c : QueryCache) (q : String) : Option (Int × List PyRow) :=
  (c.entries.find? (fun e => e.1 == q)).map (fun e => e.2)

def cache_store (c : QueryCache) (q : String) (ts : Int) (rows : List PyRow) :
    QueryCache :=
  ⟨(q, ts, rows) :: c.entries⟩

/-- Source `4-cache_query.py`, `fetch_users_with_cache` (the `with_db_connection` ∘
`cache_query` wrapper around `cursor.fetchall()`).  `db` maps a query to the
raw rows the cursor delivers; `now` is `time.time()` at call time.  Returns
(value returned to the caller, updated cache, whether the underlying query
executed).  A fresh-enough cache entry is returned as stored (lists); an
executed query returns the driver's tuples and stores their serialized
form. -/
def fetch_users_with_cache (db : String → List (List Cell)) (cache : QueryCache)
    (query : String) (now : Int) : List PyRow × QueryCache × Bool :=
  match cache_lookup cache query with
  | some (ts, cached) =>
    if now - ts < CACHE_TTL then
      (cached, cache, false)
    else
      let result := (db query).map PyRow.tupleRow
      (result, cache_store cache query now (serialize_rows result), true)
  | none =>
    let result := (db query).map PyRow.tupleRow
    (result, cache_store cache query now (serialize_rows result), true)

/-- C10 (amended): two calls with the same query within `CACHE_TTL` seconds
execute the underlying query exactly once; the miss call returns the driver's
row tuples and the hit call returns the serialized lists-of-lists, and the two
return values are structurally unequal whenever the result set is non-empty
(for an empty result both calls return the empty list). -/
theorem cache_hit_shape (db : String → List (List Cell)) (q : String)
    (t1 t2 : Int) (httl : t2 - t1 < CACHE_TTL) :
    (fetch_users_with_cache db ⟨[]⟩ q t1).2.2 = true ∧
    (fetch_users_with_cache db (fetch_users_with_cache db ⟨[]⟩ q t1).2.1 q t2).2.2 =
      false ∧
    (fetch_users_with_cache db ⟨[]⟩ q t1).1 = (db q).map PyRow.tupleRow ∧
    (fetch_users_with_cache db (fetch_users_with_cache db ⟨[]⟩ q t1).2.1 q t2).1 =
      ((db q).map (fun cs => PyRow.listRow cs)) ∧
    (db q ≠ [] →
      (fetch_users_with_cache db ⟨[]⟩ q t1).1 ≠
        (fetch_users_with_cache db (fetch_users_with_cache db ⟨[]⟩ q t1).2.1 q t2).1) ∧
    (db q = [] →
      (fetch_users_with_cache db ⟨[]⟩ q t1).1 =
        (fetch_users_with_cache db (fetch_users_with_cache db ⟨[]⟩ q t1).2.1 q t2).1) := by
  have hlook : cache_lookup (cache_store ⟨[]⟩ q t1
      (serialize_rows ((db q).map PyRow.tupleRow))) q =
      some (t1, serialize_rows ((db q).map PyRow.tupleRow)) := by
    unfold cache_lookup cache_store
    rw [List.find?_cons_of_pos _ (by simp)]
    rfl
  have hfirst : fetch_users_with_cache db ⟨[]⟩ q t1 =
      ((db q).map PyRow.tupleRow,
        cache_store ⟨[]⟩ q t1 (serialize_rows ((db q).map PyRow.tupleRow)), true) := by
    rfl
  have hser : serialize_rows ((db q).map PyRow.tupleRow) =
      (db q).map (fun cs => PyRow.listRow cs) := by
    unfold serialize_rows
    rw [List.map_map]
    rfl
  have hsecond : fetch_users_with_cache db
      (fetch_users_with_cache db ⟨[]⟩ q t1).2.1 q t2 =
      ((db q).map (fun cs => PyRow.listRow cs),
        cache_store ⟨[]⟩ q t1 (serialize_rows ((db q).map PyRow.tupleRow)), false) := by
    conv_lhs => rw [hfirst]
    show fetch_users_with_cache db
      (cache_store ⟨[]⟩ q t1 (serialize_rows ((db q).map PyRow.tupleRow))) q t2 = _
    unfold fetch_users_with_cache
    rw [hlook]
    simp only
    rw [if_pos httl, hser]
  refine ⟨by rw [hfirst], by rw [hsecond], by rw [hfirst], by rw [hsecond], ?_, ?_⟩
  · intro hne
    rw [hsecond, hfirst]
    simp only
    cases hdb : db q with
    | nil => exact absurd hdb hne
    | cons r rs => simp
  · intro hnil
    rw [hsecond, hfirst]
    simp [hnil]

/-- Counterexample to C10 as stated: for a query whose result set is empty,
the miss call and the in-TTL hit call return structurally equal values (both
the empty list), even though the hit was served from the cache. -/
theorem cache_hit_shape_counterexample :
    (fetch_users_with_cache (fun _ => []) ⟨[]⟩ "SELECT * FROM users WHERE 0 = 1"
        ((1 : Int))).2.2 = true ∧
    (fetch_users_with_cache (fun _ => [])
        (fetch_users_with_cache (fun _ => []) ⟨[]⟩ "SELECT * FROM users WHERE 0 = 1"
          ((1 : Int))).2.1
        "SELECT * FROM users WHERE 0 = 1" ((2 : Int))).2.2 = false ∧
    (fetch_users_with_cache (fun _ => []) ⟨[]⟩ "SELECT * FROM users WHERE 0 = 1"
        ((1 : Int))).1 =
      (fetch_users_with_cache (fun _ => [])
        (fetch_users_with_cache (fun _ => []) ⟨[]⟩ "SELECT * FROM users WHERE 0 = 1"
          ((1 : Int))).2.1
        "SELECT * FROM users WHERE 0 = 1" ((2 : Int))).1 := by
  decide

/-- Witness for the amended C10 on a one-row result set at times 0 and 1. -/
theorem cache_hit_shape_witness :
    ((1 : Int) - 0 < CACHE_TTL) ∧
    ((fetch_users_with_cache (fun _ => [[Cell.cInt 1]]) ⟨[]⟩ "SELECT * FROM users"
        0).2.2 = true ∧
    (fetch_users_with_cache (fun _ => [[Cell.cInt 1]])
        (fetch_users_with_cache (fun _ => [[Cell.cInt 1]]) ⟨[]⟩ "SELECT * FROM users"
          0).2.1 "SELECT * FROM users" 1).2.2 = false ∧
    (fetch_users_with_cache (fun _ => [[Cell.cInt 1]]) ⟨[]⟩ "SELECT * FROM users"
        0).1 = ([[Cell.cInt 1]] : List (List Cell)).map PyRow.tupleRow ∧
    (fetch_users_with_cache (fun _ => [[Cell.cInt 1]])
        (fetch_users_with_cache (fun _ => [[Cell.cInt 1]]) ⟨[]⟩ "SELECT * FROM users"
          0).2.1 "SELECT * FROM users" 1).1 =
      ([[Cell.cInt 1]] : List (List Cell)).map (fun cs => PyRow.listRow cs) ∧
    (([[Cell.cInt 1]] : List (List Cell)) ≠ [] →
      (fetch_users_with_cache (fun _ => [[Cell.cInt 1]]) ⟨[]⟩ "SELECT * FROM users"
          0).1 ≠
        (fetch_users_with_cache (fun _ => [[Cell.cInt 1]])
          (fetch_users_with_cache (fun _ => [[Cell.cInt 1]]) ⟨[]⟩
            "SELECT * FROM users" 0).2.1 "SELECT * FROM users" 1).1) ∧
    (([[Cell.cInt 1]] : List (List Cell)) = [] →
      (fetch_users_with_cache (fun _ => [[Cell.cInt 1]]) ⟨[]⟩ "SELECT * FROM users"
          0).1 =
        (fetch_users_with_cache (fun _ => [[Cell.cInt 1]])
          (fetch_users_with_cache (fun _ => [[Cell.cInt 1]]) ⟨[]⟩
            "SELECT * FROM users" 0).2.1 "SELECT * FROM users" 1).1)) :=
  ⟨by decide,
   cache_hit_shape (fun _ => [[Cell.cInt 1]]) "SELECT * FROM users" 0 1 (by decide)⟩

/-! ## C7: `GithubOrgClient.has_license` -/

/-- A repository's `license` object as delivered by the GitHub repos endpoint:
a JSON object carrying a `key`. -/
structure License where
  key : String
deriving Repr, DecidableEq

/-- A repository object: a `name` and an optional `license` object
(spec §6: "a list of objects with `name` and optional `license.key`"). -/
structure Repo where
  name : String
  license : Option License
deriving Repr, DecidableEq

/-- Modelled from the spec: `client.py` (`GithubOrgClient.has_license`) is not
among the repository's source files — only its unit tests are
(`test_client.py`, `test_has_license`).  Spec §8: "`has_license(repo, key)`
returns true iff `repo["license"]["key"] == key`, false if the field is absent
or differs." -/
def has_license (repo : Repo) (license_key : String) : Bool :=
  match repo.license with
  | some l => l.key == license_key
  | none => false

/-- C7: `has_license(repo, key)` is true exactly when the repo's license key
is `key`, and false when the license field is absent or its key differs. -/
theorem has_license_iff (repo : Repo) (key : String) :
    (has_license repo key = true ↔ repo.license.map License.key = some key) ∧
    (repo.license = none → has_license repo key = false) ∧
    (∀ l, repo.license = some l → l.key ≠ key → has_license repo key = false) := by
  refine ⟨?_, ?_, ?_⟩
  · cases hrl : repo.license with
    | none => simp [has_license, hrl]
    | some l => simp [has_license, hrl]
  · intro h
    simp [has_license, h]
  · intro l hl hne
    simp [has_license, hl, hne]

/-- Witness for C7 on the two fixtures of `test_has_license` plus a
license-less repo. -/
theorem has_license_iff_witness :
    has_license ⟨"truth", some ⟨"my_license"⟩⟩ "my_license" = true ∧
    has_license ⟨"ruby-build", some ⟨"other_license"⟩⟩ "my_license" = false ∧
    has_license ⟨"cpp-netlib", none⟩ "my_license" = false :=
  ⟨(has_license_iff ⟨"truth", some ⟨"my_license"⟩⟩ "my_license").1.mpr (by decide),
   (has_license_iff ⟨"ruby-build", some ⟨"other_license"⟩⟩ "my_license").2.2
     ⟨"other_license"⟩ (by decide) (by decide),
   (has_license_iff ⟨"cpp-netlib", none⟩ "my_license").2.1 (by decide)⟩

end AlxBackend
